import Mathlib

/-!
Verification of the candidate-to-requirement matching engine in
`anshin_theme/api/candidate_matching.py`.

Modelling conventions:
* Dates are modelled as `Int` day numbers (the code only adds day counts to
  dates, subtracts dates to obtain day counts, and compares dates).
* Python `int` values are modelled by `Int` (skill years, proficiency levels,
  ages) or `Nat` (tally counts, which are sums of booleans).
* The two float thresholds in `calculate_tier` are exact for these integer
  magnitudes: Python compares `int` with `float` exactly, `reqTotal * 0.5` is
  exact in binary, and `reqTotal * 0.8` rounds to the integer
  `0.8 * reqTotal` whenever the latter is an integer, so
  `x >= reqTotal * 0.5` is embedded as `2 * x ≥ reqTotal` and
  `x >= reqTotal * 0.8` as `5 * x ≥ 4 * reqTotal`.
* Nullable database fields are `Option` values; Python `None` is `none`.
-/

namespace AnshinTheme

/-- One employee skill row, as selected in `get_employees_with_skills`:
`skill`, `IFNULL(no_of_years,0) as years`, and the `CASE` proficiency
encoding `prof_level`. -/
structure EmployeeSkill where
  skill : String
  years : Int
  prof_level : Int
  deriving DecidableEq

/-- One requirement skill row, as selected in `get_requirement_skills`:
`skill as name`, `IFNULL(no_of_years,0) as years`, the `CASE` proficiency
encoding `prof`, and the `type` tag (`required` or `preferred`). -/
structure ReqSkill where
  name : String
  years : Int
  prof : Int
  type : String
  deriving DecidableEq

/-- The requirement-skill lists returned by `get_requirement_skills`. -/
structure ReqSkills where
  required : List ReqSkill
  preferred : List ReqSkill
  deriving DecidableEq

/-- A `SkillMatchResult` dict as built by `match_single_skill`. -/
structure SkillMatchResult where
  name : String
  reqYears : Int
  reqProf : Int
  empYears : Int
  empProf : Int
  status : String
  type : String
  deriving DecidableEq

/-- The contract-information value returned by `check_contract_availability`:
either an exclusion `reason` dict or the contract metadata dict. -/
inductive AvailInfo where
  | reason (r : String)
  | contract (hasContract : Bool) (endsOn availableFrom daysUntilAvailable : Int)
  deriving DecidableEq

/-- Source function `check_age_match(emp_age, min_age, max_age)`:
`FAIL` on absent age, `EXACT` inside `[min_age, max_age]`, `POTENTIAL` in the
two ±2 tolerance bands, else `FAIL`. -/
def check_age_match (emp_age : Option Int) (min_age max_age : Int) : String :=
  match emp_age with
  | none => "FAIL"
  | some a =>
    if min_age ≤ a ∧ a ≤ max_age then "EXACT"
    else if (min_age - 2 ≤ a ∧ a < min_age) ∨ (max_age < a ∧ a ≤ max_age + 2) then "POTENTIAL"
    else "FAIL"

/-- Source function `match_single_skill(req_skill, emp_skills, skill_type)`.
The lookup is Python `next((s for s in emp_skills if s["skill"] == req_skill["name"]), None)`,
i.e. the first list element whose name matches. -/
def match_single_skill (req_skill : ReqSkill) (emp_skills : List EmployeeSkill)
    (skill_type : String) : SkillMatchResult :=
  match emp_skills.find? (fun s => s.skill == req_skill.name) with
  | none =>
    { name := req_skill.name, reqYears := req_skill.years, reqProf := req_skill.prof
      empYears := 0, empProf := 0, status := "missing", type := skill_type }
  | some emp_skill =>
    let years_diff := emp_skill.years - req_skill.years
    let prof_diff := emp_skill.prof_level - req_skill.prof
    let status :=
      if years_diff > 2 ∧ emp_skill.prof_level ≥ req_skill.prof then "exceeds"
      else if emp_skill.prof_level ≥ req_skill.prof ∧ 0 ≤ years_diff ∧ years_diff ≤ 2 then "exact"
      else if prof_diff.natAbs ≤ 1 ∧ years_diff.natAbs ≤ 1 then "near"
      else "below"
    { name := req_skill.name, reqYears := req_skill.years, reqProf := req_skill.prof
      empYears := emp_skill.years, empProf := emp_skill.prof_level
      status := status, type := skill_type }

/-- Source function `check_contract_availability(active_contract_end, future_contract_start,
requirement_start_date, minimum_availability)` from the source, with the
current date `today` passed explicitly (the source reads it via `getdate()`).
`minimum_availability or 0` maps `None` to `0` (and keeps `0` at `0`), which
is `Option.getD 0`. -/
def check_contract_availability (active_contract_end future_contract_start : Option Int)
    (requirement_start_date minimum_availability : Option Int) (today : Int) :
    String × Option AvailInfo :=
  let req_start := requirement_start_date.getD today
  let min_avail_days := minimum_availability.getD 0
  let acceptable_window_end := req_start + min_avail_days
  match active_contract_end with
  | none =>
    match future_contract_start with
    | some future_start =>
      if future_start - req_start < min_avail_days then
        ("EXCLUDED", some (.reason "Future contract starts too soon"))
      else
        ("AVAILABLE", none)
    | none => ("AVAILABLE", none)
  | some contract_end =>
    if contract_end ≥ acceptable_window_end then
      ("EXCLUDED", some (.reason "Active contract too long"))
    else
      let days_until_available := if contract_end > today then contract_end - today else 0
      let shown : String × Option AvailInfo :=
        ("POTENTIAL", some (.contract true contract_end contract_end days_until_available))
      match future_contract_start with
      | some future_start =>
        if future_start - req_start < min_avail_days then
          ("EXCLUDED", some (.reason "Future contract interferes"))
        else shown
      | none => shown

/-- Source function `calculate_tier(...)`.  Counts are tallies of required
skills; float thresholds embedded exactly as explained in the header. -/
def calculate_tier (reqExceeds reqExact reqNear reqBelow reqMissing reqTotal : Nat)
    (age_status contract_status : String) : String :=
  if contract_status = "POTENTIAL" then
    if 5 * (reqExceeds + reqExact + reqNear) ≥ 4 * reqTotal ∧
        (age_status = "EXACT" ∨ age_status = "POTENTIAL") then "POTENTIAL"
    else "NOT_SHOWN"
  else
    if 2 * reqExceeds ≥ reqTotal then "EXCEEDS"
    else if reqExceeds + reqExact = reqTotal then "EXACT"
    else if reqExceeds + reqExact + reqNear = reqTotal then "NEAR"
    else if 5 * (reqExceeds + reqExact + reqNear) ≥ 4 * reqTotal ∧
        (age_status = "EXACT" ∨ age_status = "POTENTIAL") then "POTENTIAL"
    else "NOT_SHOWN"

/-- One employee record, as assembled by `get_employees_with_skills`:
identity fields, skill rows, and the two derived contract dates. -/
structure Employee where
  employee : String
  employee_name : String
  age : Option Int
  nationality : Option String
  skills : List EmployeeSkill
  active_contract_end : Option Int
  future_contract_start : Option Int
  deriving DecidableEq

/-- The requirement fields read by `get_matched_candidates` that the scorer
uses.  `minimum_age`/`maximum_age` are taken as proper integers here (the
data-model invariant `minimum_age ≤ maximum_age` presumes both present); the
nullable-row variant used for the error-propagation analysis is below. -/
structure Requirement where
  minimum_age : Int
  maximum_age : Int
  nationality : Option String
  start_date : Option Int
  minimum_availability : Option Int
  deriving DecidableEq

/-- The candidate dict built by `match_employee_to_requirement`.
`contractInfo` is `none` exactly when the source omits the key. -/
structure Candidate where
  id : String
  name : String
  age : Option Int
  nationality : Option String
  ageStatus : Option String
  reqExceeds : Nat
  reqExact : Nat
  reqNear : Nat
  reqBelow : Nat
  reqMissing : Nat
  prefMatched : Nat
  prefTotal : Nat
  skills : List SkillMatchResult
  contractInfo : Option AvailInfo
  deriving DecidableEq

/-- Steps 4–8 of the scorer: skill evaluation, tallies, tier, and the
candidate snapshot.  Shared verbatim between the total scorer and the
nullable-row scorer, since the source lines are the same. -/
def score_and_build (employee : Employee) (req_skills : ReqSkills)
    (age_status contract_status : String) (contract_info : Option AvailInfo) :
    Option Candidate × String :=
  let required_matches := req_skills.required.map
    (fun s => match_single_skill s employee.skills "required")
  let preferred_matches := req_skills.preferred.map
    (fun s => match_single_skill s employee.skills "preferred")
  let reqExceeds := required_matches.countP (fun m => m.status == "exceeds")
  let reqExact := required_matches.countP (fun m => m.status == "exact")
  let reqNear := required_matches.countP (fun m => m.status == "near")
  let reqBelow := required_matches.countP (fun m => m.status == "below")
  let reqMissing := required_matches.countP (fun m => m.status == "missing")
  let prefMatched := preferred_matches.countP
    (fun m => m.status == "exceeds" || m.status == "exact" || m.status == "near")
  let tier := calculate_tier reqExceeds reqExact reqNear reqBelow reqMissing
    required_matches.length age_status contract_status
  let all_skill_matches := required_matches ++ preferred_matches
  let age_text := if age_status = "POTENTIAL" then some "Within ±2 tolerance" else none
  let candidate : Candidate :=
    { id := employee.employee, name := employee.employee_name
      age := employee.age, nationality := employee.nationality
      ageStatus := age_text
      reqExceeds := reqExceeds, reqExact := reqExact, reqNear := reqNear
      reqBelow := reqBelow, reqMissing := reqMissing
      prefMatched := prefMatched, prefTotal := preferred_matches.length
      skills := all_skill_matches, contractInfo := contract_info }
  (some candidate, tier)

/-- Source function `match_employee_to_requirement(employee, requirement, req_skills)`, from
the source: nationality gate, age gate, availability gate, then scoring. -/
def match_employee_to_requirement (employee : Employee) (requirement : Requirement)
    (req_skills : ReqSkills) (today : Int) : Option Candidate × String :=
  if employee.nationality ≠ requirement.nationality then (none, "NOT_SHOWN")
  else
    let age_status := check_age_match employee.age
      requirement.minimum_age requirement.maximum_age
    if age_status = "FAIL" then (none, "NOT_SHOWN")
    else
      let cs := check_contract_availability employee.active_contract_end
        employee.future_contract_start requirement.start_date
        requirement.minimum_availability today
      if cs.1 = "EXCLUDED" then (none, "NOT_SHOWN")
      else score_and_build employee req_skills age_status cs.1 cs.2

/-- The four tier buckets of `get_matched_candidates`.  Elements are
`Option Candidate` because the source appends the `candidate` value as-is
(it is provably a dict, never `None`, on the appended tiers). -/
structure Buckets where
  exceeds : List (Option Candidate)
  exact : List (Option Candidate)
  near : List (Option Candidate)
  potential : List (Option Candidate)
  deriving DecidableEq

/-- Source line `matched_candidates[tier.lower()].append(candidate)`.
`calculate_tier` only ever produces the five tier strings, so the catch-all
branch is unreachable from the pipeline. -/
def bucketsAdd (b : Buckets) (tier : String) (candidate : Option Candidate) : Buckets :=
  if tier = "EXCEEDS" then { b with exceeds := b.exceeds ++ [candidate] }
  else if tier = "EXACT" then { b with exact := b.exact ++ [candidate] }
  else if tier = "NEAR" then { b with near := b.near ++ [candidate] }
  else if tier = "POTENTIAL" then { b with potential := b.potential ++ [candidate] }
  else b

/-- The body of the employee loop in `get_matched_candidates`. -/
def bucket_step (requirement : Requirement) (req_skills : ReqSkills) (today : Int)
    (b : Buckets) (emp : Employee) : Buckets :=
  let mt := match_employee_to_requirement emp requirement req_skills today
  if mt.2 ≠ "NOT_SHOWN" then bucketsAdd b mt.2 mt.1 else b

/-- The employee loop of `get_matched_candidates(requirement_id)`, over an
already-fetched store snapshot (requirement record, its skill lists, the
employee list) and a fixed current date. -/
def get_matched_candidates (requirement : Requirement) (req_skills : ReqSkills)
    (employees : List Employee) (today : Int) : Buckets :=
  employees.foldl (bucket_step requirement req_skills today) ⟨[], [], [], []⟩

/-!
Error-propagation layer.  The requirement row is fetched with
`frappe.db.get_value(...)`, whose `minimum_age`/`maximum_age` columns are
nullable; Python raises `TypeError` when `check_age_match` compares such a
`None` with an employee's integer age.  The whole employee loop sits inside
one `try`/`except` that converts any exception into a
`{"success": False, "message": ...}` response.  The definitions below embed
exactly that control flow: `Except` models a raised exception, and the
Python comparison and arithmetic operators raise on `None` operands.
-/

/-- Python `<=` on possibly-`None` ints: `TypeError` if either side is `None`. -/
def pyLe (a b : Option Int) : Except String Bool :=
  match a, b with
  | some x, some y => .ok (decide (x ≤ y))
  | _, _ => .error "TypeError: unorderable types: NoneType and int"

/-- Python `<` on possibly-`None` ints. -/
def pyLt (a b : Option Int) : Except String Bool :=
  match a, b with
  | some x, some y => .ok (decide (x < y))
  | _, _ => .error "TypeError: unorderable types: NoneType and int"

/-- Python `-` with an int literal on a possibly-`None` left operand. -/
def pySub (a : Option Int) (k : Int) : Except String Int :=
  match a with
  | some x => .ok (x - k)
  | none => .error "TypeError: unsupported operand types: NoneType and int"

/-- Python `+` with an int literal on a possibly-`None` left operand. -/
def pyAdd (a : Option Int) (k : Int) : Except String Int :=
  match a with
  | some x => .ok (x + k)
  | none => .error "TypeError: unsupported operand types: NoneType and int"

/-- The function `check_age_match` over a nullable requirement row, with Python's chained
comparisons and short-circuit `or` evaluated literally: the `None` age guard
fires before any comparison, so `min_age`/`max_age` being `None` raises only
for employees whose age is present. -/
def check_age_matchN (emp_age min_age max_age : Option Int) : Except String String := do
  match emp_age with
  | none => return "FAIL"
  | some a =>
    let b1 ← pyLe min_age (some a)
    let isExact ← if b1 then pyLe (some a) max_age else pure false
    if isExact then
      return "EXACT"
    let lowBand ← pySub min_age 2
    let c1 ← pyLe (some lowBand) (some a)
    let leftBand ← if c1 then pyLt (some a) min_age else pure false
    if leftBand then
      return "POTENTIAL"
    let d1 ← pyLt max_age (some a)
    let rightBand ← if d1 then do
        let highBand ← pyAdd max_age 2
        pyLe (some a) (some highBand)
      else pure false
    if rightBand then
      return "POTENTIAL"
    return "FAIL"

/-- The requirement row as actually fetched: age bounds nullable. -/
structure RequirementN where
  minimum_age : Option Int
  maximum_age : Option Int
  nationality : Option String
  start_date : Option Int
  minimum_availability : Option Int
  deriving DecidableEq

/-- The function `match_employee_to_requirement` over a nullable requirement row: the same
gates and scoring, with the age gate able to raise. -/
def match_employee_to_requirementN (employee : Employee) (requirement : RequirementN)
    (req_skills : ReqSkills) (today : Int) : Except String (Option Candidate × String) := do
  if employee.nationality ≠ requirement.nationality then
    return (none, "NOT_SHOWN")
  let age_status ← check_age_matchN employee.age
    requirement.minimum_age requirement.maximum_age
  if age_status = "FAIL" then
    return (none, "NOT_SHOWN")
  let cs := check_contract_availability employee.active_contract_end
    employee.future_contract_start requirement.start_date
    requirement.minimum_availability today
  if cs.1 = "EXCLUDED" then
    return (none, "NOT_SHOWN")
  return score_and_build employee req_skills age_status cs.1 cs.2

/-- The employee loop of `get_matched_candidates` with exception propagation:
the first raised exception aborts the remaining iterations. -/
def run_matchingN (requirement : RequirementN) (req_skills : ReqSkills)
    (employees : List Employee) (today : Int) : Except String Buckets :=
  employees.foldlM (fun b emp => do
      let mt ← match_employee_to_requirementN emp requirement req_skills today
      if mt.2 ≠ "NOT_SHOWN" then return bucketsAdd b mt.2 mt.1 else return b)
    (⟨[], [], [], []⟩ : Buckets)

/-- The response envelope of `get_matched_candidates`: either the success
payload (its source key is named `matches`; `matchPayload` here because
`matches` is reserved in the proof language) or the `except` handler's
`{"success": False, "message": str(e)}`. -/
structure ApiResult where
  success : Bool
  matchPayload : Option Buckets
  message : Option String
  deriving DecidableEq

/-- The function `get_matched_candidates` including its request-level `try`/`except`:
an exception anywhere in the employee loop yields `success = false` and no
match payload. -/
def get_matched_candidatesN (requirement : RequirementN) (req_skills : ReqSkills)
    (employees : List Employee) (today : Int) : ApiResult :=
  match run_matchingN requirement req_skills employees today with
  | .ok b => { success := true, matchPayload := some b, message := none }
  | .error e => { success := false, matchPayload := none, message := some e }

/-!  Theorems settling the claims. -/

/-- The AVAILABLE-candidate tier cascade exactly as the spec states it
(first match wins): EXCEEDS, EXACT, NEAR, POTENTIAL, NOT_SHOWN.  Thresholds
written with the same exact integer embedding used for the source. -/
def specAvailableTier (exceeds exact near required_total : Nat) (age_status : String) : String :=
  if 2 * exceeds ≥ required_total then "EXCEEDS"
  else if exceeds + exact = required_total then "EXACT"
  else if exceeds + exact + near = required_total then "NEAR"
  else if 5 * (exceeds + exact + near) ≥ 4 * required_total ∧
      (age_status = "EXACT" ∨ age_status = "POTENTIAL") then "POTENTIAL"
  else "NOT_SHOWN"

/-- C1: for an AVAILABLE candidate, `calculate_tier` evaluates the spec's
ordered cascade (EXCEEDS / EXACT / NEAR / POTENTIAL / NOT_SHOWN), and with
`required_total = 0` the first `≥` threshold is vacuously satisfied, so the
tier is EXCEEDS. -/
theorem C1_available_tier_cascade (e x n b m T : Nat) (g : String) :
    calculate_tier e x n b m T g "AVAILABLE" = specAvailableTier e x n T g ∧
    calculate_tier e x n b m 0 g "AVAILABLE" = "EXCEEDS" := by
  constructor
  · unfold calculate_tier specAvailableTier
    rw [if_neg (by decide : ¬("AVAILABLE" : String) = "POTENTIAL")]
  · unfold calculate_tier
    rw [if_neg (by decide : ¬("AVAILABLE" : String) = "POTENTIAL")]
    exact if_pos (Nat.zero_le _)

/-- C2: for a contract-limited (availability POTENTIAL) candidate, the tier
is POTENTIAL iff skills reach the 80% threshold and the age status is EXACT
or POTENTIAL, otherwise NOT_SHOWN; EXCEEDS/EXACT/NEAR are unreachable. -/
theorem C2_contract_potential_ceiling (e x n b m T : Nat) (g : String) :
    (calculate_tier e x n b m T g "POTENTIAL" = "POTENTIAL" ↔
       5 * (e + x + n) ≥ 4 * T ∧ (g = "EXACT" ∨ g = "POTENTIAL")) ∧
    (¬(5 * (e + x + n) ≥ 4 * T ∧ (g = "EXACT" ∨ g = "POTENTIAL")) →
       calculate_tier e x n b m T g "POTENTIAL" = "NOT_SHOWN") ∧
    calculate_tier e x n b m T g "POTENTIAL" ≠ "EXCEEDS" ∧
    calculate_tier e x n b m T g "POTENTIAL" ≠ "EXACT" ∧
    calculate_tier e x n b m T g "POTENTIAL" ≠ "NEAR" := by
  unfold calculate_tier
  rw [if_pos rfl]
  split_ifs with h
  · exact ⟨iff_of_true rfl h, fun hc => absurd h hc, by decide, by decide, by decide⟩
  · exact ⟨iff_of_false (by decide) h, fun _ => rfl, by decide, by decide, by decide⟩

/-- Witness for C2 at concrete inputs: one required skill, none matched,
age FAIL would not even reach here but an unacceptable age status suffices. -/
theorem C2_witness : calculate_tier 0 0 0 0 0 1 "FAIL" "POTENTIAL" = "NOT_SHOWN" :=
  (C2_contract_potential_ceiling 0 0 0 0 0 1 "FAIL").2.1 (by decide)

/-- The spec's interfering-future-contract condition: a future contract
exists and starts fewer than `min_days` days after the requirement start. -/
def futureTooSoon (future_contract_start : Option Int) (req_start min_days : Int) : Prop :=
  match future_contract_start with
  | some f => f - req_start < min_days
  | none => False

instance (f : Option Int) (r m : Int) : Decidable (futureTooSoon f r m) :=
  match f with
  | some x => inferInstanceAs (Decidable (x - r < m))
  | none => inferInstanceAs (Decidable False)

/-- The Availability Evaluator exactly as the spec's §4.3 states it:
defaults, `acceptable_window_end`, the two exclusion checks in priority
order, then the AVAILABLE / POTENTIAL grants, with
`days_until_available = max(0, active_contract_end - today)`. -/
def specCheckAvailability (active_contract_end future_contract_start : Option Int)
    (requirement_start_date minimum_availability : Option Int) (today : Int) :
    String × Option AvailInfo :=
  let req_start := requirement_start_date.getD today
  let min_days := minimum_availability.getD 0
  let acceptable_window_end := req_start + min_days
  match active_contract_end with
  | none =>
    if futureTooSoon future_contract_start req_start min_days then
      ("EXCLUDED", some (.reason "Future contract starts too soon"))
    else ("AVAILABLE", none)
  | some ce =>
    if ce ≥ acceptable_window_end then ("EXCLUDED", some (.reason "Active contract too long"))
    else if futureTooSoon future_contract_start req_start min_days then
      ("EXCLUDED", some (.reason "Future contract interferes"))
    else ("POTENTIAL", some (.contract true ce ce (max 0 (ce - today))))

/-- C3: `check_contract_availability` implements the spec's availability
decision: same defaults, same window arithmetic, exclusions evaluated
before grants in the stated order, and the POTENTIAL metadata with
`days_until_available = max(0, active_contract_end - today)`. -/
theorem C3_availability_refines_spec (ace fcs rsd ma : Option Int) (today : Int) :
    check_contract_availability ace fcs rsd ma today =
      specCheckAvailability ace fcs rsd ma today := by
  have hmax : ∀ ce : Int, (if ce > today then ce - today else 0) = max 0 (ce - today) := by
    intro ce
    split_ifs <;> omega
  unfold check_contract_availability specCheckAvailability
  cases ace with
  | none =>
    cases fcs with
    | none => rfl
    | some f => rfl
  | some ce =>
    cases fcs with
    | none =>
      simp only [hmax, futureTooSoon]
      split_ifs <;> first | rfl | exact False.elim (by assumption)
    | some f =>
      simp only [hmax, futureTooSoon]

/-- C4 counterexample: active contract ending 5 days after the requirement
start (start = day 100, end = day 105), `minimum_availability = 10`, no
future contract, today = day 0.  The evaluator returns POTENTIAL, not
EXCLUDED, because `105 ≥ 100 + 10` is false. -/
theorem C4_counterexample :
    check_contract_availability (some 105) none (some 100) (some 10) 0 =
      ("POTENTIAL", some (.contract true 105 105 105)) ∧
    ("POTENTIAL" : String) ≠ "EXCLUDED" := by
  constructor
  · rfl
  · decide

/-- C4 amended: an active contract ending 5 days after the requirement start
with `minimum_availability_days = 10` and no future contract yields
POTENTIAL with `days_until_available = max(0, contract_end - today)`, since
exclusion requires `active_contract_end ≥ requirement_start + 10` and the
contract ends inside that window. -/
theorem C4_amended (today req_start : Int) :
    check_contract_availability (some (req_start + 5)) none (some req_start) (some 10) today =
      ("POTENTIAL", some (.contract true (req_start + 5) (req_start + 5)
        (max 0 (req_start + 5 - today)))) := by
  rw [C3_availability_refines_spec]
  unfold specCheckAvailability
  simp only [Option.getD_some]
  rw [if_neg (by omega), if_neg (by simp [futureTooSoon])]

/-- C5: the Skill Match Evaluator returns the `missing` result with zeroed
employee fields when no employee skill carries the requirement skill's name
(exact string equality), and when the employee skill of that name exists
(stated for a uniquely-named match, as the claim presumes), it returns the
ordered first-match-wins cascade exceeds / exact / near / below over
`years_diff` and `level_diff`. -/
theorem C5_skill_match_spec (r : ReqSkill) (ss : List EmployeeSkill) (t : String) :
    ((∀ s ∈ ss, s.skill ≠ r.name) →
       match_single_skill r ss t =
         ⟨r.name, r.years, r.prof, 0, 0, "missing", t⟩) ∧
    (∀ es, es ∈ ss → es.skill = r.name → (∀ s ∈ ss, s.skill = r.name → s = es) →
       match_single_skill r ss t =
         ⟨r.name, r.years, r.prof, es.years, es.prof_level,
          (if es.years - r.years > 2 ∧ es.prof_level ≥ r.prof then "exceeds"
           else if es.prof_level ≥ r.prof ∧ 0 ≤ es.years - r.years ∧ es.years - r.years ≤ 2 then
             "exact"
           else if (es.prof_level - r.prof).natAbs ≤ 1 ∧ (es.years - r.years).natAbs ≤ 1 then
             "near"
           else "below"), t⟩) := by
  constructor
  · intro habs
    have hnone : ss.find? (fun s => s.skill == r.name) = none := by
      rw [List.find?_eq_none]
      intro s hs
      simpa using habs s hs
    unfold match_single_skill
    rw [hnone]
  · intro es hmem hname huniq
    have hsome : ss.find? (fun s => s.skill == r.name) = some es := by
      have hex : (ss.find? (fun s => s.skill == r.name)).isSome := by
        rw [List.find?_isSome]
        exact ⟨es, hmem, by simpa using hname⟩
      obtain ⟨b, hb⟩ := Option.isSome_iff_exists.mp hex
      have hbmem := List.mem_of_find?_eq_some hb
      have hbname : b.skill = r.name := by simpa using List.find?_some hb
      rw [hb, huniq b hbmem hbname]
    unfold match_single_skill
    rw [hsome]

/-- Witness for C5: a present skill (3 years above requirement, higher
level) evaluates to `exceeds`; an absent skill evaluates to `missing`. -/
theorem C5_witness :
    match_single_skill ⟨"SkillA", 2, 2, "required"⟩ [⟨"SkillA", 5, 3⟩] "required" =
      ⟨"SkillA", 2, 2, 5, 3, "exceeds", "required"⟩ ∧
    match_single_skill ⟨"SkillB", 1, 1, "required"⟩ [] "required" =
      ⟨"SkillB", 1, 1, 0, 0, "missing", "required"⟩ := by
  constructor
  · have h := (C5_skill_match_spec ⟨"SkillA", 2, 2, "required"⟩ [⟨"SkillA", 5, 3⟩] "required").2
      ⟨"SkillA", 5, 3⟩ (by decide) rfl (by decide)
    rw [h]
    decide
  · exact (C5_skill_match_spec ⟨"SkillB", 1, 1, "required"⟩ [] "required").1 (by decide)

/-- Unfolding equation of `check_age_match` on a present age. -/
theorem check_age_match_some (a lo hi : Int) :
    check_age_match (some a) lo hi =
      if lo ≤ a ∧ a ≤ hi then "EXACT"
      else if (lo - 2 ≤ a ∧ a < lo) ∨ (hi < a ∧ a ≤ hi + 2) then "POTENTIAL"
      else "FAIL" := rfl

/-- C6: the Age Match Evaluator returns FAIL on an absent age, EXACT exactly
on `[min, max]`, POTENTIAL exactly on the two ±2 tolerance bands (boundary
inclusive, exact range exclusive), FAIL otherwise, and always one of these
three values; in particular `min-2 ↦ POTENTIAL`, `min-3 ↦ FAIL`,
`max+2 ↦ POTENTIAL`. -/
theorem C6_age_match_spec (lo hi : Int) (h : lo ≤ hi) :
    check_age_match none lo hi = "FAIL" ∧
    (∀ a : Int, check_age_match (some a) lo hi = "EXACT" ↔ lo ≤ a ∧ a ≤ hi) ∧
    (∀ a : Int, check_age_match (some a) lo hi = "POTENTIAL" ↔
       ((lo - 2 ≤ a ∧ a < lo) ∨ (hi < a ∧ a ≤ hi + 2))) ∧
    check_age_match (some (lo - 2)) lo hi = "POTENTIAL" ∧
    check_age_match (some (lo - 3)) lo hi = "FAIL" ∧
    check_age_match (some (hi + 2)) lo hi = "POTENTIAL" ∧
    (∀ a : Option Int, check_age_match a lo hi = "FAIL" ∨
       check_age_match a lo hi = "EXACT" ∨ check_age_match a lo hi = "POTENTIAL") := by
  refine ⟨rfl, ?_, ?_, ?_, ?_, ?_, ?_⟩
  · intro a
    rw [check_age_match_some]
    split_ifs with h1 h2
    · exact iff_of_true rfl h1
    · exact iff_of_false (by decide) h1
    · exact iff_of_false (by decide) h1
  · intro a
    rw [check_age_match_some]
    split_ifs with h1 h2
    · exact iff_of_false (by decide) (by omega)
    · exact iff_of_true rfl h2
    · exact iff_of_false (by decide) h2
  · rw [check_age_match_some]
    split_ifs with h1 h2
    · exact absurd h1 (by omega)
    · rfl
    · exact absurd (by omega : (lo - 2 ≤ lo - 2 ∧ lo - 2 < lo) ∨ (hi < lo - 2 ∧ lo - 2 ≤ hi + 2)) h2
  · rw [check_age_match_some]
    split_ifs with h1 h2
    · exact absurd h1 (by omega)
    · exact absurd h2 (by omega)
    · rfl
  · rw [check_age_match_some]
    split_ifs with h1 h2
    · exact absurd h1 (by omega)
    · rfl
    · exact absurd (by omega : (lo - 2 ≤ hi + 2 ∧ hi + 2 < lo) ∨ (hi < hi + 2 ∧ hi + 2 ≤ hi + 2)) h2
  · intro a
    cases a with
    | none => exact Or.inl rfl
    | some x =>
      rw [check_age_match_some]
      split_ifs <;> decide

/-- Witness for C6 at `min = 25`, `max = 35`: age 23 is POTENTIAL and age
22 is FAIL. -/
theorem C6_witness :
    check_age_match (some ((25 : Int) - 2)) 25 35 = "POTENTIAL" ∧
    check_age_match (some ((25 : Int) - 3)) 25 35 = "FAIL" :=
  ⟨(C6_age_match_spec 25 35 (by decide)).2.2.2.1,
   (C6_age_match_spec 25 35 (by decide)).2.2.2.2.1⟩

/-- The candidates that the pipeline files under tier `t`: the employees
whose match outcome carries tier `t`, in fetch order. -/
def tier_bucket (req : Requirement) (rs : ReqSkills) (today : Int) (t : String)
    (emps : List Employee) : List (Option Candidate) :=
  (emps.filter (fun e => (match_employee_to_requirement e req rs today).2 == t)).map
    (fun e => (match_employee_to_requirement e req rs today).1)

/-- The list `tier_bucket` unfolds one employee at a time. -/
theorem tier_bucket_cons (req : Requirement) (rs : ReqSkills) (today : Int) (t : String)
    (e : Employee) (es : List Employee) :
    tier_bucket req rs today t (e :: es) =
      (if (match_employee_to_requirement e req rs today).2 == t
       then [(match_employee_to_requirement e req rs today).1] else []) ++
      tier_bucket req rs today t es := by
  unfold tier_bucket
  by_cases h : ((match_employee_to_requirement e req rs today).2 == t) = true
  · simp [List.filter_cons, h]
  · simp [List.filter_cons, h]

/-- One loop iteration appends the candidate to exactly the bucket named by
its tier, and to no other bucket; a NOT_SHOWN outcome changes nothing. -/
theorem bucket_step_eq (req : Requirement) (rs : ReqSkills) (today : Int)
    (b : Buckets) (emp : Employee) :
    bucket_step req rs today b emp =
      ⟨b.exceeds ++ (if (match_employee_to_requirement emp req rs today).2 == "EXCEEDS"
          then [(match_employee_to_requirement emp req rs today).1] else []),
       b.exact ++ (if (match_employee_to_requirement emp req rs today).2 == "EXACT"
          then [(match_employee_to_requirement emp req rs today).1] else []),
       b.near ++ (if (match_employee_to_requirement emp req rs today).2 == "NEAR"
          then [(match_employee_to_requirement emp req rs today).1] else []),
       b.potential ++ (if (match_employee_to_requirement emp req rs today).2 == "POTENTIAL"
          then [(match_employee_to_requirement emp req rs today).1] else [])⟩ := by
  unfold bucket_step bucketsAdd
  rcases hmt : match_employee_to_requirement emp req rs today with ⟨cand, tier⟩
  simp only
  by_cases h1 : tier = "EXCEEDS"
  · subst h1; cases b; simp
  by_cases h2 : tier = "EXACT"
  · subst h2; cases b; simp
  by_cases h3 : tier = "NEAR"
  · subst h3; cases b; simp
  by_cases h4 : tier = "POTENTIAL"
  · subst h4; cases b; simp
  by_cases h5 : tier = "NOT_SHOWN"
  · subst h5; cases b; simp
  · cases b
    simp [h1, h2, h3, h4, h5]

/-- Closed form of the employee loop: each bucket is its initial content
followed by the candidates of that tier, in fetch order. -/
theorem foldl_bucket_eq (req : Requirement) (rs : ReqSkills) (today : Int)
    (emps : List Employee) :
    ∀ b : Buckets,
      List.foldl (bucket_step req rs today) b emps =
        ⟨b.exceeds ++ tier_bucket req rs today "EXCEEDS" emps,
         b.exact ++ tier_bucket req rs today "EXACT" emps,
         b.near ++ tier_bucket req rs today "NEAR" emps,
         b.potential ++ tier_bucket req rs today "POTENTIAL" emps⟩ := by
  induction emps with
  | nil => intro b; cases b; simp [tier_bucket]
  | cons e es ih =>
    intro b
    rw [List.foldl_cons, ih, bucket_step_eq]
    simp only [tier_bucket_cons, List.append_assoc]

/-- Membership in a tier's pipeline bucket names an employee whose match
outcome is exactly that tier. -/
theorem mem_tier_bucket (req : Requirement) (rs : ReqSkills) (today : Int)
    (t : String) (emps : List Employee) (c : Option Candidate)
    (hc : c ∈ tier_bucket req rs today t emps) :
    ∃ e ∈ emps, match_employee_to_requirement e req rs today = (c, t) := by
  unfold tier_bucket at hc
  obtain ⟨e, he, hfe⟩ := List.mem_map.mp hc
  obtain ⟨hemem, hp⟩ := List.mem_filter.mp he
  refine ⟨e, hemem, ?_⟩
  have ht : (match_employee_to_requirement e req rs today).2 = t := by simpa using hp
  rw [← hfe, ← ht]

/-- C7: an employee whose nationality differs from the requirement's gets
outcome `(None, NOT_SHOWN)` outright — for every skill set, age and contract
configuration, so no skill or availability evaluation can influence it — and
every candidate of every output bucket originates from an employee whose
tier equals that bucket's tier, so no bucket ever holds a NOT_SHOWN
candidate. -/
theorem C7_nationality_gate_and_no_not_shown (req : Requirement) (rs : ReqSkills) (today : Int) :
    (∀ emp : Employee, emp.nationality ≠ req.nationality →
       match_employee_to_requirement emp req rs today = (none, "NOT_SHOWN")) ∧
    (∀ (emps : List Employee) (c : Option Candidate),
       (c ∈ (get_matched_candidates req rs emps today).exceeds →
          ∃ e ∈ emps, match_employee_to_requirement e req rs today = (c, "EXCEEDS")) ∧
       (c ∈ (get_matched_candidates req rs emps today).exact →
          ∃ e ∈ emps, match_employee_to_requirement e req rs today = (c, "EXACT")) ∧
       (c ∈ (get_matched_candidates req rs emps today).near →
          ∃ e ∈ emps, match_employee_to_requirement e req rs today = (c, "NEAR")) ∧
       (c ∈ (get_matched_candidates req rs emps today).potential →
          ∃ e ∈ emps, match_employee_to_requirement e req rs today = (c, "POTENTIAL"))) := by
  constructor
  · intro emp h
    unfold match_employee_to_requirement
    rw [if_pos h]
  · intro emps c
    unfold get_matched_candidates
    rw [foldl_bucket_eq]
    simp only [List.nil_append]
    exact ⟨mem_tier_bucket req rs today "EXCEEDS" emps c,
           mem_tier_bucket req rs today "EXACT" emps c,
           mem_tier_bucket req rs today "NEAR" emps c,
           mem_tier_bucket req rs today "POTENTIAL" emps c⟩

/-- Witness for C7: a Thai candidate against a Japanese-nationality
requirement is NOT_SHOWN. -/
theorem C7_witness :
    match_employee_to_requirement ⟨"EMP-1", "N", some 30, some "TH", [], none, none⟩
      ⟨25, 35, some "JP", none, none⟩ ⟨[], []⟩ 0 = (none, "NOT_SHOWN") :=
  (C7_nationality_gate_and_no_not_shown ⟨25, 35, some "JP", none, none⟩ ⟨[], []⟩ 0).1
    ⟨"EMP-1", "N", some 30, some "TH", [], none, none⟩ (by decide)

/-- A requirement row with a NULL `minimum_age`, as the store can return. -/
def reqNullableAge : RequirementN := ⟨none, some 35, some "JP", none, none⟩

/-- An employee without a recorded age: the age gate returns FAIL before any
comparison, so evaluation succeeds (outcome NOT_SHOWN). -/
def empNoAge : Employee := ⟨"EMP-B", "B", none, some "JP", [], none, none⟩

/-- An employee with a recorded age: comparing it against the NULL
`minimum_age` raises, so evaluating this employee fails. -/
def empWithAge : Employee := ⟨"EMP-A", "A", some 30, some "JP", [], none, none⟩

/-- C8 counterexample: with `reqNullableAge`, employee `EMP-B` evaluates
fine, but the failure raised while evaluating `EMP-A` aborts the whole run:
the response is a request-level failure (`success = false`, no match
payload), not a success result with `EMP-A` merely excluded. -/
theorem C8_counterexample :
    match_employee_to_requirementN empNoAge reqNullableAge ⟨[], []⟩ 0 =
      .ok (none, "NOT_SHOWN") ∧
    match_employee_to_requirementN empWithAge reqNullableAge ⟨[], []⟩ 0 =
      .error "TypeError: unorderable types: NoneType and int" ∧
    (get_matched_candidatesN reqNullableAge ⟨[], []⟩ [empNoAge, empWithAge] 0).success = false ∧
    (get_matched_candidatesN reqNullableAge ⟨[], []⟩ [empNoAge, empWithAge] 0).matchPayload
      = none := by
  refine ⟨rfl, rfl, rfl, rfl⟩

/-- C8 amended: a failure raised while evaluating one employee aborts the
whole matching run — the exception propagates to the request-level handler,
which returns `success = false` with the exception's message and no match
payload; no partial results survive. -/
theorem C8_amended (requirement : RequirementN) (rs : ReqSkills)
    (emps : List Employee) (today : Int) (msg : String)
    (h : run_matchingN requirement rs emps today = .error msg) :
    get_matched_candidatesN requirement rs emps today =
      { success := false, matchPayload := none, message := some msg } := by
  unfold get_matched_candidatesN
  rw [h]

/-- Witness for C8 amended at the concrete failing store snapshot. -/
theorem C8_witness :
    get_matched_candidatesN reqNullableAge ⟨[], []⟩ [empNoAge, empWithAge] 0 =
      { success := false, matchPayload := none,
        message := some "TypeError: unorderable types: NoneType and int" } :=
  C8_amended reqNullableAge ⟨[], []⟩ [empNoAge, empWithAge] 0
    "TypeError: unorderable types: NoneType and int" rfl

/-- C9 counterexample: the requirement asks for `SkillA` (0 years, level 1);
the employee holds two `SkillA` rows, first (5 years, level 3), last
(0 years, level 1).  The evaluator returns `empYears = 5` and status
`exceeds` — the first row — while last-seen would give `empYears = 0` with
status `exact` (as evaluating the last row alone shows). -/
theorem C9_counterexample :
    (match_single_skill ⟨"SkillA", 0, 1, "required"⟩
       [⟨"SkillA", 5, 3⟩, ⟨"SkillA", 0, 1⟩] "required").empYears = 5 ∧
    (match_single_skill ⟨"SkillA", 0, 1, "required"⟩
       [⟨"SkillA", 5, 3⟩, ⟨"SkillA", 0, 1⟩] "required").status = "exceeds" ∧
    (match_single_skill ⟨"SkillA", 0, 1, "required"⟩
       [⟨"SkillA", 0, 1⟩] "required").empYears = 0 ∧
    (match_single_skill ⟨"SkillA", 0, 1, "required"⟩
       [⟨"SkillA", 0, 1⟩] "required").status = "exact" := by
  refine ⟨rfl, rfl, rfl, rfl⟩

/-- C9 amended: on duplicate skill rows the first match in list order wins —
for any skill list decomposed as non-matching rows, then the first matching
row `s`, then arbitrary rows (further duplicates included), the evaluator's
result is the one computed from `s` alone. -/
theorem C9_amended (r : ReqSkill) (pre : List EmployeeSkill) (s : EmployeeSkill)
    (rest : List EmployeeSkill) (t : String)
    (hpre : ∀ x ∈ pre, x.skill ≠ r.name) (h : s.skill = r.name) :
    match_single_skill r (pre ++ s :: rest) t = match_single_skill r [s] t := by
  have hp : (s.skill == r.name) = true := beq_iff_eq.mpr h
  have hfind : ∀ pre' : List EmployeeSkill, (∀ x ∈ pre', x.skill ≠ r.name) →
      (pre' ++ s :: rest).find? (fun x => x.skill == r.name) = some s := by
    intro pre'
    induction pre' with
    | nil =>
      intro _
      exact List.find?_cons_of_pos _ hp
    | cons p ps ih =>
      intro hne
      have hneg : ¬((p.skill == r.name) = true) := by
        simpa using hne p (List.mem_cons_self p ps)
      have hstep : ((p :: ps) ++ s :: rest).find? (fun x => x.skill == r.name) =
          (ps ++ s :: rest).find? (fun x => x.skill == r.name) :=
        List.find?_cons_of_neg _ hneg
      exact hstep.trans (ih (fun x hx => hne x (List.mem_cons_of_mem p hx)))
  have h1 : (pre ++ s :: rest).find? (fun x => x.skill == r.name) = some s :=
    hfind pre hpre
  have h2 : ([s] : List EmployeeSkill).find? (fun x => x.skill == r.name) = some s :=
    List.find?_cons_of_pos _ hp
  unfold match_single_skill
  rw [h1, h2]

/-- Witness for C9 amended: a non-matching row precedes the duplicates; the
first `SkillA` row decides the result and the trailing duplicate is
ignored. -/
theorem C9_witness :
    match_single_skill ⟨"SkillA", 0, 1, "required"⟩
        [⟨"SkillB", 9, 2⟩, ⟨"SkillA", 5, 3⟩, ⟨"SkillA", 0, 1⟩] "required" =
      match_single_skill ⟨"SkillA", 0, 1, "required"⟩ [⟨"SkillA", 5, 3⟩] "required" :=
  C9_amended ⟨"SkillA", 0, 1, "required"⟩ [⟨"SkillB", 9, 2⟩] ⟨"SkillA", 5, 3⟩
    [⟨"SkillA", 0, 1⟩] "required" (by decide) rfl

/-- C10: the matching pipeline is deterministic in the store snapshot and
the current date — two runs over equal requirement data, skill lists,
employee lists and date produce equal buckets, membership, order and
per-candidate skill breakdowns included. -/
theorem C10_determinism (req₁ req₂ : Requirement) (rs₁ rs₂ : ReqSkills)
    (emps₁ emps₂ : List Employee) (today₁ today₂ : Int)
    (hreq : req₁ = req₂) (hrs : rs₁ = rs₂) (hemps : emps₁ = emps₂)
    (ht : today₁ = today₂) :
    get_matched_candidates req₁ rs₁ emps₁ today₁ =
      get_matched_candidates req₂ rs₂ emps₂ today₂ := by
  subst hreq
  subst hrs
  subst hemps
  subst ht
  rfl

/-- Witness for C10 at a concrete snapshot. -/
theorem C10_witness :
    get_matched_candidates ⟨25, 35, some "JP", none, none⟩
        ⟨[⟨"SkillA", 2, 2, "required"⟩], []⟩
        [⟨"EMP-1", "E", some 30, some "JP", [⟨"SkillA", 5, 3⟩], none, none⟩] 0 =
      get_matched_candidates ⟨25, 35, some "JP", none, none⟩
        ⟨[⟨"SkillA", 2, 2, "required"⟩], []⟩
        [⟨"EMP-1", "E", some 30, some "JP", [⟨"SkillA", 5, 3⟩], none, none⟩] 0 :=
  C10_determinism _ _ _ _ _ _ _ _ rfl rfl rfl rfl

end AnshinTheme
